import Mathlib

/-!
Verification of the JSON5 round-trip CST node model (`json5kit/nodes.py`).

The embedding mirrors the Python module:
- `Json5Trivia` with its three subclasses (comment, whitespace, newline),
  each carrying only a raw `source` slice;
- `Json5Primitive` with fields `source`, `value`, `trailing_trivia_nodes`,
  and the fixed-literal constructors `Json5Null`, `Json5Boolean`,
  `Json5Integer`;
- container nodes `Json5Array` (ordered member list) and `Json5Object`
  (insertion-ordered dict of primitive keys to primitive values, per the
  source's type annotation `dict[Json5Primitive, Json5Primitive]`);
- the two serializers `to_json5` (exact round trip) and `to_json`
  (canonical minimal JSON).

Python `Json5Primitive` defines no `__eq__`/`__hash__`, so dict keys
compare by object identity; object identity is modelled by a `Nat` tag on
each stored entry (`ObjEntry.id`).  Python attribute assignment on a
primitive is modelled as a functional record rebuild (`setValue`,
`setSource`).  The methods contain no field writes, so they embed as pure
functions; `to_json5_run`/`to_json_run` additionally thread the node
through the call to make the no-mutation frame property explicit.
-/

/-- Trivia node: whitespace, newlines and comments, as in the Python
subclasses `Json5Comment`, `Json5Whitespace`, `Json5Newline` of
`Json5Trivia`.  Each carries only its raw source slice. -/
inductive Json5Trivia where
  | comment (source : String)
  | whitespace (source : String)
  | newline (source : String)
deriving DecidableEq

/-- The `source` attribute set by `Json5Trivia.__init__`. -/
def Json5Trivia.source : Json5Trivia → String
  | .comment s => s
  | .whitespace s => s
  | .newline s => s

/-- The decoded semantic values that the module's constructors ever store
in a primitive's `value` attribute: `None`, a `bool`, or an `int`. -/
inductive JValue where
  | null
  | bool (b : Bool)
  | int (n : Int)
deriving DecidableEq

/-- `Json5Primitive`: raw source slice, decoded value, trailing trivia,
exactly the three attributes set by `Json5Primitive.__init__`. -/
structure Json5Primitive where
  source : String
  value : JValue
  trailing_trivia_nodes : List Json5Trivia
deriving DecidableEq

/-- Python `"".join(trivia.source for trivia in nodes)` over a list of
already-extracted strings. -/
def joinAll : List String → String
  | [] => ""
  | s :: rest => s ++ joinAll rest

/-- Python `sep.join(items)`: items joined with exactly one separator
between consecutive items, none before the first or after the last. -/
def joinSep (sep : String) : List String → String
  | [] => ""
  | [s] => s
  | s :: rest => s ++ sep ++ joinSep sep rest

/-- `"".join(trivia.source for trivia in nodes)` for a trivia list. -/
def emitAll (nodes : List Json5Trivia) : String :=
  joinAll (nodes.map Json5Trivia.source)

/-- `Json5Primitive.to_json5`: the raw slice followed by every trailing
trivia node's source, in order. -/
def Json5Primitive.to_json5 (p : Json5Primitive) : String :=
  p.source ++ emitAll p.trailing_trivia_nodes

/-- `Json5Primitive.to_json`: the raw slice alone. -/
def Json5Primitive.to_json (p : Json5Primitive) : String :=
  p.source

/-- `Json5Null.__init__`: takes only the trailing trivia; `source` is
always `"null"` and `value` the null constant. -/
def Json5Null (trailing_trivia_nodes : List Json5Trivia) : Json5Primitive :=
  Json5Primitive.mk "null" JValue.null trailing_trivia_nodes

/-- `Json5Boolean.__init__`: passes source, value and trivia through. -/
def Json5Boolean (source : String) (value : Bool)
    (trailing_trivia_nodes : List Json5Trivia) : Json5Primitive :=
  Json5Primitive.mk source (JValue.bool value) trailing_trivia_nodes

/-- `Json5Integer.__init__`: passes source, value and trivia through. -/
def Json5Integer (source : String) (value : Int)
    (trailing_trivia_nodes : List Json5Trivia) : Json5Primitive :=
  Json5Primitive.mk source (JValue.int value) trailing_trivia_nodes

/-- Python attribute assignment `p.value = v` on a primitive. -/
def Json5Primitive.setValue (p : Json5Primitive) (v : JValue) : Json5Primitive :=
  Json5Primitive.mk p.source v p.trailing_trivia_nodes

/-- Python attribute assignment `p.source = s` on a primitive. -/
def Json5Primitive.setSource (p : Json5Primitive) (s : String) : Json5Primitive :=
  Json5Primitive.mk s p.value p.trailing_trivia_nodes

/-- One entry of a `Json5Object`'s `data` dict.  The `id` field models the
Python object identity of the key: `Json5Primitive` defines no
`__eq__`/`__hash__`, so the dict compares keys by identity. -/
structure ObjEntry where
  id : Nat
  key : Json5Primitive
  value : Json5Primitive
deriving DecidableEq

/-- Python `d[k] = v` on the object's `data` dict: if a key with the same
identity is present, its entry keeps its place and key and gets the new
value; otherwise the new entry is appended (insertion order). -/
def dictSetItem (d : List ObjEntry) (e : ObjEntry) : List ObjEntry :=
  if d.any (fun x => x.id == e.id) then
    d.map (fun x => if x.id == e.id then ObjEntry.mk x.id x.key e.value else x)
  else d ++ [e]

/-- The node sum type: primitives, arrays (`members: list[Json5Node]`) and
objects (`data: dict[Json5Primitive, Json5Primitive]`).  Containers carry
leading and trailing trivia lists per `Json5Container.__init__`. -/
inductive Json5Node where
  | prim (p : Json5Primitive)
  | array (leading_trivia_nodes trailing_trivia_nodes : List Json5Trivia)
      (members : List Json5Node)
  | obj (leading_trivia_nodes trailing_trivia_nodes : List Json5Trivia)
      (data : List ObjEntry)

/-- `Json5Array.__init__`: takes only the two trivia lists and sets
`self.members = []`. -/
def Json5Array (leading trailing : List Json5Trivia) : Json5Node :=
  Json5Node.array leading trailing []

/-- `Json5Object.__init__`: takes only the two trivia lists and sets
`self.data = {}`. -/
def Json5Object (leading trailing : List Json5Trivia) : Json5Node :=
  Json5Node.obj leading trailing []

mutual

/-- `to_json5` on nodes: a primitive defers to `Json5Primitive.to_json5`;
an array emits `"["`, its leading trivia, members joined by `","`, its
trailing trivia, `"]"`; an object likewise with `key:value` pairs. -/
def Json5Node.to_json5 : Json5Node → String
  | .prim p => p.to_json5
  | .array lt tt ms =>
      "[" ++ emitAll lt ++ joinSep "," (Json5Node.to_json5_list ms)
        ++ emitAll tt ++ "]"
  | .obj lt tt d =>
      "\x7b" ++ emitAll lt
        ++ joinSep ","
          (d.map (fun e => e.key.to_json5 ++ ":" ++ e.value.to_json5))
        ++ emitAll tt ++ "\x7d"

/-- `member.to_json5() for member in self.members`. -/
def Json5Node.to_json5_list : List Json5Node → List String
  | [] => []
  | m :: ms => m.to_json5 :: Json5Node.to_json5_list ms

end

mutual

/-- `to_json` on nodes: no trivia is consulted; arrays emit members joined
by `","` inside brackets, objects emit `key:value` pairs joined by `","`
inside braces. -/
def Json5Node.to_json : Json5Node → String
  | .prim p => p.to_json
  | .array _ _ ms => "[" ++ joinSep "," (Json5Node.to_json_list ms) ++ "]"
  | .obj _ _ d =>
      "\x7b"
        ++ joinSep "," (d.map (fun e => e.key.to_json ++ ":" ++ e.value.to_json))
        ++ "\x7d"

/-- `member.to_json() for member in self.members`. -/
def Json5Node.to_json_list : List Json5Node → List String
  | [] => []
  | m :: ms => m.to_json :: Json5Node.to_json_list ms

end

/-- A primitive with its trailing trivia list emptied. -/
def erasePrimTrivia (p : Json5Primitive) : Json5Primitive :=
  Json5Primitive.mk p.source p.value []

mutual

/-- The same tree with every trivia list (leading and trailing, on every
node, including object keys and values) replaced by the empty list. -/
def Json5Node.eraseTrivia : Json5Node → Json5Node
  | .prim p => .prim (erasePrimTrivia p)
  | .array _ _ ms => .array [] [] (Json5Node.eraseTrivia_list ms)
  | .obj _ _ d =>
      .obj [] []
        (d.map (fun e => ObjEntry.mk e.id (erasePrimTrivia e.key) (erasePrimTrivia e.value)))

/-- `eraseTrivia` mapped over a member list. -/
def Json5Node.eraseTrivia_list : List Json5Node → List Json5Node
  | [] => []
  | m :: ms => m.eraseTrivia :: Json5Node.eraseTrivia_list ms

end

mutual

/-- The raw literal slices of every primitive occurring in the tree
(array members recursively; object keys and values). -/
def Json5Node.literals : Json5Node → List String
  | .prim p => [p.source]
  | .array _ _ ms => Json5Node.literals_list ms
  | .obj _ _ d => d.foldr (fun e acc => e.key.source :: e.value.source :: acc) []

/-- `literals` accumulated over a member list. -/
def Json5Node.literals_list : List Json5Node → List String
  | [] => []
  | m :: ms => m.literals ++ Json5Node.literals_list ms

end

/-- The sources of the comment-kind trivia in one trivia list. -/
def commentsOf (l : List Json5Trivia) : List String :=
  (l.filter (fun t => match t with | .comment _ => true | _ => false)).map
    Json5Trivia.source

mutual

/-- The raw sources of every comment trivia node attached anywhere in the
tree: on primitives' trailing lists, on containers' leading/trailing
lists, and on object keys' and values' trailing lists. -/
def Json5Node.commentSources : Json5Node → List String
  | .prim p => commentsOf p.trailing_trivia_nodes
  | .array lt tt ms =>
      commentsOf lt ++ Json5Node.commentSources_list ms ++ commentsOf tt
  | .obj lt tt d =>
      commentsOf lt
        ++ d.foldr
          (fun e acc =>
            commentsOf e.key.trailing_trivia_nodes
              ++ commentsOf e.value.trailing_trivia_nodes ++ acc) []
        ++ commentsOf tt

/-- `commentSources` accumulated over a member list. -/
def Json5Node.commentSources_list : List Json5Node → List String
  | [] => []
  | m :: ms => m.commentSources ++ Json5Node.commentSources_list ms

end

mutual

/-- `to_json5` as a state-passing call: the string it returns together
with the node as it stands after the call.  The method body only reads
fields (`self.source`, the trivia lists, `self.members`, `self.data`) and
performs no assignment, so each case rebuilds the node from those same
fields and the post-call children. -/
def Json5Node.to_json5_run : Json5Node → String × Json5Node
  | .prim p => (p.source ++ emitAll p.trailing_trivia_nodes, .prim p)
  | .array lt tt ms =>
      let r := Json5Node.to_json5_run_list ms
      ("[" ++ emitAll lt ++ joinSep "," r.1 ++ emitAll tt ++ "]",
        .array lt tt r.2)
  | .obj lt tt d =>
      ("\x7b" ++ emitAll lt
          ++ joinSep ","
            (d.map (fun e => e.key.to_json5 ++ ":" ++ e.value.to_json5))
          ++ emitAll tt ++ "\x7d",
        .obj lt tt d)

/-- `to_json5_run` threaded over a member list. -/
def Json5Node.to_json5_run_list : List Json5Node → List String × List Json5Node
  | [] => ([], [])
  | m :: ms =>
      let r := m.to_json5_run
      let rs := Json5Node.to_json5_run_list ms
      (r.1 :: rs.1, r.2 :: rs.2)

end

mutual

/-- `to_json` as a state-passing call, analogous to `to_json5_run`. -/
def Json5Node.to_json_run : Json5Node → String × Json5Node
  | .prim p => (p.source, .prim p)
  | .array lt tt ms =>
      let r := Json5Node.to_json_run_list ms
      ("[" ++ joinSep "," r.1 ++ "]", .array lt tt r.2)
  | .obj lt tt d =>
      ("\x7b"
          ++ joinSep "," (d.map (fun e => e.key.to_json ++ ":" ++ e.value.to_json))
          ++ "\x7d",
        .obj lt tt d)

/-- `to_json_run` threaded over a member list. -/
def Json5Node.to_json_run_list : List Json5Node → List String × List Json5Node
  | [] => ([], [])
  | m :: ms =>
      let r := m.to_json_run
      let rs := Json5Node.to_json_run_list ms
      (r.1 :: rs.1, r.2 :: rs.2)

end

theorem to_json5_list_eq_map (ms : List Json5Node) :
    Json5Node.to_json5_list ms = ms.map Json5Node.to_json5 := by
  induction ms with
  | nil => rfl
  | cons m ms ih => simp [Json5Node.to_json5_list, ih]

theorem to_json_list_eq_map (ms : List Json5Node) :
    Json5Node.to_json_list ms = ms.map Json5Node.to_json := by
  induction ms with
  | nil => rfl
  | cons m ms ih => simp [Json5Node.to_json_list, ih]

mutual

theorem to_json5_run_eq : ∀ t : Json5Node, t.to_json5_run = (t.to_json5, t)
  | .prim p => rfl
  | .array lt tt ms => by
      simp [Json5Node.to_json5_run, Json5Node.to_json5, to_json5_run_list_eq ms]
  | .obj lt tt d => rfl

theorem to_json5_run_list_eq :
    ∀ ms : List Json5Node,
      Json5Node.to_json5_run_list ms = (Json5Node.to_json5_list ms, ms)
  | [] => rfl
  | m :: ms => by
      simp [Json5Node.to_json5_run_list, Json5Node.to_json5_list,
        to_json5_run_eq m, to_json5_run_list_eq ms]

end

mutual

theorem to_json_run_eq : ∀ t : Json5Node, t.to_json_run = (t.to_json, t)
  | .prim p => rfl
  | .array lt tt ms => by
      simp [Json5Node.to_json_run, Json5Node.to_json, to_json_run_list_eq ms]
  | .obj lt tt d => rfl

theorem to_json_run_list_eq :
    ∀ ms : List Json5Node,
      Json5Node.to_json_run_list ms = (Json5Node.to_json_list ms, ms)
  | [] => rfl
  | m :: ms => by
      simp [Json5Node.to_json_run_list, Json5Node.to_json_list,
        to_json_run_eq m, to_json_run_list_eq ms]

end

theorem dictSetItem_fresh (d : List ObjEntry) (e : ObjEntry)
    (h : ∀ x ∈ d, x.id ≠ e.id) : dictSetItem d e = d ++ [e] := by
  have hany : d.any (fun x => x.id == e.id) = false := by
    simp only [List.any_eq_false, beq_iff_eq]
    exact h
  simp [dictSetItem, hany]

theorem map_setitem_id (v : Json5Primitive) (eid : Nat) :
    ∀ l : List ObjEntry, (∀ x ∈ l, x.id ≠ eid) →
      l.map (fun x => if x.id == eid then ObjEntry.mk x.id x.key v else x) = l
  | [], _ => rfl
  | a :: l, h => by
      have ha : (a.id == eid) = false := by
        simpa using h a (List.mem_cons_self a l)
      have ih := map_setitem_id v eid l (fun x hx => h x (List.mem_cons_of_mem a hx))
      have ha2 : (if a.id == eid then ObjEntry.mk a.id a.key v else a) = a := by
        rw [ha]
        simp
      rw [List.map_cons, ha2, ih]

theorem dictSetItem_existing (d : List ObjEntry) (e : ObjEntry) (v : Json5Primitive)
    (h : ∀ x ∈ d, x.id ≠ e.id) :
    dictSetItem (d ++ [e]) (ObjEntry.mk e.id e.key v)
      = d ++ [ObjEntry.mk e.id e.key v] := by
  have hany : (d ++ [e]).any (fun x => x.id == (ObjEntry.mk e.id e.key v).id) = true := by
    simp [List.any_append]
  simp only [dictSetItem, hany, if_true, List.map_append]
  rw [map_setitem_id v e.id d h]
  simp

/-- Claim C1, counterexample: `Json5Primitive` keys compare by object
identity, so assigning through a second, distinct key node whose decoded
value equals an existing key's decoded value appends a second entry
instead of replacing the first — the object ends up with two entries for
the same decoded key value, and the first entry keeps its old value. -/
theorem c1_counterexample :
    dictSetItem
        (dictSetItem []
          (ObjEntry.mk 0 (Json5Integer "1" 1 []) (Json5Boolean "true" true [])))
        (ObjEntry.mk 1 (Json5Integer "0x1" 1 []) (Json5Boolean "false" false []))
      = [ObjEntry.mk 0 (Json5Integer "1" 1 []) (Json5Boolean "true" true []),
         ObjEntry.mk 1 (Json5Integer "0x1" 1 []) (Json5Boolean "false" false [])]
    ∧ (Json5Integer "1" 1 []).value = (Json5Integer "0x1" 1 []).value := by
  constructor
  · rfl
  · rfl

/-- Claim C1, amended: key identity in the object's key-to-value dict is
by key-node identity, not by decoded value.  Inserting a key node whose
identity is fresh for the dict always appends a new entry, even when its
decoded value equals an existing key's decoded value; assigning again
through the same key identity replaces exactly that entry's value in
place (last write wins per identical key node). -/
theorem c1_object_key_identity (d : List ObjEntry) (e : ObjEntry)
    (h : ∀ x ∈ d, x.id ≠ e.id) :
    dictSetItem d e = d ++ [e]
    ∧ ∀ v, dictSetItem (d ++ [e]) (ObjEntry.mk e.id e.key v)
        = d ++ [ObjEntry.mk e.id e.key v] :=
  ⟨dictSetItem_fresh d e h, fun v => dictSetItem_existing d e v h⟩

/-- Witness for C1 at a concrete dict: one existing entry with key id 0
and decoded value 1, inserting key id 1 with the same decoded value. -/
theorem c1_object_key_identity_witness :
    (∀ x ∈ [ObjEntry.mk 0 (Json5Integer "1" 1 []) (Json5Null [])],
        x.id ≠ (ObjEntry.mk 1 (Json5Integer "0x1" 1 []) (Json5Null [])).id)
    ∧ (dictSetItem [ObjEntry.mk 0 (Json5Integer "1" 1 []) (Json5Null [])]
          (ObjEntry.mk 1 (Json5Integer "0x1" 1 []) (Json5Null []))
        = [ObjEntry.mk 0 (Json5Integer "1" 1 []) (Json5Null [])]
          ++ [ObjEntry.mk 1 (Json5Integer "0x1" 1 []) (Json5Null [])]
      ∧ ∀ v, dictSetItem
            ([ObjEntry.mk 0 (Json5Integer "1" 1 []) (Json5Null [])]
              ++ [ObjEntry.mk 1 (Json5Integer "0x1" 1 []) (Json5Null [])])
            (ObjEntry.mk
              (ObjEntry.mk 1 (Json5Integer "0x1" 1 []) (Json5Null [])).id
              (ObjEntry.mk 1 (Json5Integer "0x1" 1 []) (Json5Null [])).key v)
          = [ObjEntry.mk 0 (Json5Integer "1" 1 []) (Json5Null [])]
            ++ [ObjEntry.mk
                (ObjEntry.mk 1 (Json5Integer "0x1" 1 []) (Json5Null [])).id
                (ObjEntry.mk 1 (Json5Integer "0x1" 1 []) (Json5Null [])).key v]) :=
  ⟨by decide,
    c1_object_key_identity
      [ObjEntry.mk 0 (Json5Integer "1" 1 []) (Json5Null [])]
      (ObjEntry.mk 1 (Json5Integer "0x1" 1 []) (Json5Null []))
      (by decide)⟩

/-- Claim C2: an array's `to_json5` is `"["`, the concatenated leading
trivia sources, the members' `to_json5` joined by `","`, the concatenated
trailing trivia sources, `"]"`; an object's `to_json5` is the same with
braces and `key:value` pairs built from the key's and value's own
`to_json5`. -/
theorem c2_container_to_source (lt tt : List Json5Trivia)
    (ms : List Json5Node) (d : List ObjEntry) :
    Json5Node.to_json5 (.array lt tt ms)
      = "[" ++ emitAll lt ++ joinSep "," (ms.map Json5Node.to_json5)
          ++ emitAll tt ++ "]"
    ∧ Json5Node.to_json5 (.obj lt tt d)
      = "\x7b" ++ emitAll lt
          ++ joinSep ","
            (d.map (fun e => e.key.to_json5 ++ ":" ++ e.value.to_json5))
          ++ emitAll tt ++ "\x7d" := by
  constructor
  · simp [Json5Node.to_json5, to_json5_list_eq_map]
  · rfl

/-- Claim C3: a primitive's `to_json5` is its raw source slice followed by
the raw slices of every trailing trivia entry, in list order, with nothing
in between. -/
theorem c3_primitive_to_source (p : Json5Primitive) :
    p.to_json5 = p.source ++ joinAll (p.trailing_trivia_nodes.map Json5Trivia.source) :=
  rfl

/-- Claim C5, counterexample: the array and object constructors do not
accept a child collection — applied to their full argument lists (the two
trivia lists only) they produce a node whose member list / entry dict is
empty. -/
theorem c5_counterexample :
    Json5Array [Json5Trivia.whitespace " "] [Json5Trivia.newline "\n"]
        = Json5Node.array [Json5Trivia.whitespace " "] [Json5Trivia.newline "\n"] []
    ∧ Json5Object [Json5Trivia.whitespace " "] [Json5Trivia.newline "\n"]
        = Json5Node.obj [Json5Trivia.whitespace " "] [Json5Trivia.newline "\n"] [] :=
  ⟨rfl, rfl⟩

/-- Claim C5, amended: primitive constructors take the already-decoded
pieces (raw slice, decoded value, trailing trivia) and store them without
scanning or validation; the array and object constructors take only the
leading and trailing trivia lists and initialize an empty child
collection, children being added afterwards by mutation. -/
theorem c5_constructors (lt tt trivia : List Json5Trivia) (s : String)
    (b : Bool) (n : Int) :
    Json5Array lt tt = Json5Node.array lt tt []
    ∧ Json5Object lt tt = Json5Node.obj lt tt []
    ∧ Json5Boolean s b trivia = Json5Primitive.mk s (JValue.bool b) trivia
    ∧ Json5Integer s n trivia = Json5Primitive.mk s (JValue.int n) trivia
    ∧ Json5Null trivia = Json5Primitive.mk "null" JValue.null trivia :=
  ⟨rfl, rfl, rfl, rfl, rfl⟩

/-- Claim C7: an empty array's `to_json5` is `"["` + leading trivia +
trailing trivia + `"]"` (no separator); with both trivia lists empty it is
exactly `"[]"`; `to_json` of an empty array is `"[]"` and of an empty
object is `"{}"` regardless of trivia. -/
theorem c7_empty_containers (lt tt : List Json5Trivia) :
    Json5Node.to_json5 (.array lt tt []) = "[" ++ emitAll lt ++ emitAll tt ++ "]"
    ∧ Json5Node.to_json5 (.array [] [] []) = "[]"
    ∧ Json5Node.to_json (.array lt tt []) = "[]"
    ∧ Json5Node.to_json (.obj lt tt []) = "\x7b\x7d" := by
  refine ⟨?_, rfl, rfl, rfl⟩
  simp [Json5Node.to_json5, Json5Node.to_json5_list, joinSep,
    String.append_empty, String.empty_append, String.append_assoc]

/-- Claim C8: updating a primitive's `value` field, its `source` field, or
both leaves the trailing-trivia list unchanged: same entries, same raw
slices, same order. -/
theorem c8_trivia_isolation (p : Json5Primitive) (v : JValue) (s : String) :
    (p.setValue v).trailing_trivia_nodes = p.trailing_trivia_nodes
    ∧ (p.setSource s).trailing_trivia_nodes = p.trailing_trivia_nodes
    ∧ ((p.setValue v).setSource s).trailing_trivia_nodes = p.trailing_trivia_nodes
    ∧ ((p.setSource s).setValue v).trailing_trivia_nodes = p.trailing_trivia_nodes :=
  ⟨rfl, rfl, rfl, rfl⟩

/-- Claim C9: a null node built by its constructor (which takes only the
trailing-trivia list) has raw source exactly `"null"`, decoded value the
null constant, and `to_json` exactly `"null"`. -/
theorem c9_null_node (tt : List Json5Trivia) :
    (Json5Null tt).source = "null"
    ∧ (Json5Null tt).value = JValue.null
    ∧ (Json5Null tt).to_json = "null"
    ∧ (Json5Node.prim (Json5Null tt)).to_json = "null" :=
  ⟨rfl, rfl, rfl, rfl⟩

/-- Claim C10: both serializers are pure and deterministic — run as
state-passing calls they return exactly the functional result and leave
the tree unchanged, so invoking `to_json` never changes a later
`to_json5` output and vice versa. -/
theorem c10_serialization_pure (t : Json5Node) :
    t.to_json5_run = (t.to_json5, t)
    ∧ t.to_json_run = (t.to_json, t)
    ∧ (t.to_json_run.2).to_json5 = t.to_json5
    ∧ (t.to_json5_run.2).to_json = t.to_json := by
  have h5 := to_json5_run_eq t
  have hj := to_json_run_eq t
  exact ⟨h5, hj, by rw [hj], by rw [h5]⟩

theorem joinSep_comma_count : ∀ l : List String, l ≠ [] →
    ((joinSep "," l).data.count ',')
      = ((l.map (fun s => s.data.count ',')).sum) + (l.length - 1)
  | [], h => absurd rfl h
  | [s], _ => by simp [joinSep]
  | s :: t :: rest, _ => by
      have ih := joinSep_comma_count (t :: rest) (by simp)
      have hsep : (",").data = [','] := rfl
      simp only [joinSep, String.data_append, List.count_append, hsep, ih,
        List.map_cons, List.sum_cons, List.length_cons]
      have hone : List.count ',' [','] = 1 := by decide
      rw [hone]
      omega

/-- The example member list used by the C6 witness: three integer
primitives, the middle one carrying a trailing comment. -/
def c6ExMembers : List Json5Node :=
  [Json5Node.prim (Json5Primitive.mk "1" (JValue.int 1) []),
   Json5Node.prim (Json5Primitive.mk "2" (JValue.int 2) [Json5Trivia.comment "// x"]),
   Json5Node.prim (Json5Primitive.mk "3" (JValue.int 3) [])]

/-- Claim C6: for a non-empty array the comma count of `to_json5` is the
commas inside the array's own leading/trailing trivia, plus the commas
inside each member's own emitted text, plus exactly `n - 1` top-level
separators. -/
theorem c6_separator_count (lt tt : List Json5Trivia) (ms : List Json5Node)
    (h : ms ≠ []) :
    ((Json5Node.to_json5 (.array lt tt ms)).data.count ',')
      = ((emitAll lt).data.count ',') + ((emitAll tt).data.count ',')
        + ((ms.map (fun m => ((Json5Node.to_json5 m).data.count ','))).sum)
        + (ms.length - 1) := by
  have hne : ms.map Json5Node.to_json5 ≠ [] := by
    simpa using h
  have hcount := joinSep_comma_count (ms.map Json5Node.to_json5) hne
  have hcomp : ((ms.map Json5Node.to_json5).map (fun s => s.data.count ',')).sum
      = (ms.map (fun m => ((Json5Node.to_json5 m).data.count ','))).sum := by
    rw [List.map_map]
    rfl
  rw [hcomp, List.length_map] at hcount
  simp only [Json5Node.to_json5, to_json5_list_eq_map, String.data_append,
    List.count_append, hcount]
  have h1 : ("[").data.count ',' = 0 := by decide
  have h2 : ("]").data.count ',' = 0 := by decide
  rw [h1, h2]
  omega

/-- Witness for C6: an array of three members, with whitespace leading
trivia and a trailing comment on the middle member, has exactly two
top-level separators. -/
theorem c6_separator_count_witness :
    c6ExMembers ≠ []
    ∧ ((Json5Node.to_json5 (.array [Json5Trivia.whitespace " "] [] c6ExMembers)).data.count ',')
        = ((emitAll [Json5Trivia.whitespace " "]).data.count ',')
          + ((emitAll []).data.count ',')
          + ((c6ExMembers.map (fun m => ((Json5Node.to_json5 m).data.count ','))).sum)
          + (c6ExMembers.length - 1) :=
  ⟨by unfold c6ExMembers; exact List.cons_ne_nil _ _,
    c6_separator_count [Json5Trivia.whitespace " "] [] c6ExMembers
      (by unfold c6ExMembers; exact List.cons_ne_nil _ _)⟩

/-- The structural punctuation characters that `to_json` emits besides
the literal raw slices. -/
def punctChars : List Char := ['[', ']', '\x7b', '\x7d', ',', ':']

mutual

theorem to_json_eraseTrivia : ∀ t : Json5Node,
    (Json5Node.eraseTrivia t).to_json = t.to_json
  | .prim p => rfl
  | .array lt tt ms => by
      simp [Json5Node.eraseTrivia, Json5Node.to_json, to_json_eraseTrivia_list ms]
  | .obj lt tt d => by
      simp only [Json5Node.eraseTrivia, Json5Node.to_json, List.map_map]
      rfl

theorem to_json_eraseTrivia_list : ∀ ms : List Json5Node,
    Json5Node.to_json_list (Json5Node.eraseTrivia_list ms) = Json5Node.to_json_list ms
  | [] => rfl
  | m :: ms => by
      simp [Json5Node.eraseTrivia_list, Json5Node.to_json_list,
        to_json_eraseTrivia m, to_json_eraseTrivia_list ms]

end

theorem mem_data_joinSep : ∀ l : List String, ∀ c ∈ (joinSep "," l).data,
    c = ',' ∨ ∃ s ∈ l, c ∈ s.data
  | [], c, hc => by
      have hnil : (joinSep "," ([] : List String)).data = [] := rfl
      rw [hnil] at hc
      cases hc
  | [s], c, hc => Or.inr ⟨s, List.mem_cons_self s [], hc⟩
  | s :: t :: rest, c, hc => by
      simp only [joinSep, String.data_append, List.mem_append] at hc
      rcases hc with (hc | hc) | hc
      · exact Or.inr ⟨s, List.mem_cons_self s (t :: rest), hc⟩
      · exact Or.inl (List.mem_singleton.mp hc)
      · rcases mem_data_joinSep (t :: rest) c hc with h | ⟨u, hu, hcu⟩
        · exact Or.inl h
        · exact Or.inr ⟨u, List.mem_cons_of_mem s hu, hcu⟩

theorem obj_literals_of_mem : ∀ (d : List ObjEntry) (e : ObjEntry), e ∈ d →
    e.key.source ∈ d.foldr (fun x acc => x.key.source :: x.value.source :: acc) []
    ∧ e.value.source ∈ d.foldr (fun x acc => x.key.source :: x.value.source :: acc) []
  | [], e, h => absurd h (List.not_mem_nil e)
  | a :: d, e, h => by
      rcases List.mem_cons.mp h with heq | h
      · subst heq
        exact ⟨by simp, by simp⟩
      · rcases obj_literals_of_mem d e h with ⟨h1, h2⟩
        exact ⟨by simp [h1], by simp [h2]⟩

mutual

theorem to_json_chars : ∀ t : Json5Node, ∀ c ∈ (Json5Node.to_json t).data,
    c ∈ punctChars ∨ ∃ s ∈ Json5Node.literals t, c ∈ s.data
  | .prim p, c, hc => Or.inr ⟨p.source, List.mem_cons_self p.source [], hc⟩
  | .array lt tt ms, c, hc => by
      simp only [Json5Node.to_json, String.data_append, List.mem_append] at hc
      rcases hc with (hc | hc) | hc
      · exact Or.inl (by simp [punctChars, List.mem_singleton.mp hc])
      · rcases mem_data_joinSep (Json5Node.to_json_list ms) c hc with h | ⟨s, hs, hcs⟩
        · exact Or.inl (by simp [punctChars, h])
        · rcases to_json_chars_list ms s hs c hcs with h | ⟨u, hu, hcu⟩
          · exact Or.inl h
          · exact Or.inr ⟨u, hu, hcu⟩
      · exact Or.inl (by simp [punctChars, List.mem_singleton.mp hc])
  | .obj lt tt d, c, hc => by
      simp only [Json5Node.to_json, String.data_append, List.mem_append] at hc
      rcases hc with (hc | hc) | hc
      · exact Or.inl (by simp [punctChars, List.mem_singleton.mp hc])
      · rcases mem_data_joinSep
            (d.map (fun e => e.key.to_json ++ ":" ++ e.value.to_json)) c hc with
          h | ⟨s, hs, hcs⟩
        · exact Or.inl (by simp [punctChars, h])
        · rcases List.mem_map.mp hs with ⟨e, hed, hse⟩
          rw [← hse] at hcs
          simp only [String.data_append, List.mem_append] at hcs
          rcases hcs with (hcs | hcs) | hcs
          · exact Or.inr ⟨e.key.source, (obj_literals_of_mem d e hed).1, hcs⟩
          · exact Or.inl (by simp [punctChars, List.mem_singleton.mp hcs])
          · exact Or.inr ⟨e.value.source, (obj_literals_of_mem d e hed).2, hcs⟩
      · exact Or.inl (by simp [punctChars, List.mem_singleton.mp hc])

theorem to_json_chars_list : ∀ ms : List Json5Node,
    ∀ r ∈ Json5Node.to_json_list ms, ∀ c ∈ r.data,
      c ∈ punctChars ∨ ∃ s ∈ Json5Node.literals_list ms, c ∈ s.data
  | [], r, hr, c, hc => absurd hr (List.not_mem_nil r)
  | m :: ms, r, hr, c, hc => by
      rcases List.mem_cons.mp hr with heq | hr
      · subst heq
        rcases to_json_chars m c hc with h | ⟨s, hs, hcs⟩
        · exact Or.inl h
        · exact Or.inr ⟨s, by simp [Json5Node.literals_list, hs], hcs⟩
      · rcases to_json_chars_list ms r hr c hc with h | ⟨s, hs, hcs⟩
        · exact Or.inl h
        · exact Or.inr ⟨s, by simp [Json5Node.literals_list, hs], hcs⟩

end

/-- The tree refuting C4 as stated: an array `[1,2]` whose leading trivia
is a comment whose raw text is `"1,2"`.  No literal slice contains that
text, yet the canonical output does. -/
def c4ExTree : Json5Node :=
  Json5Node.array [Json5Trivia.comment "1,2"] []
    [Json5Node.prim (Json5Primitive.mk "1" (JValue.int 1) []),
     Json5Node.prim (Json5Primitive.mk "2" (JValue.int 2) [])]

/-- Claim C4, counterexample: the tree `c4ExTree` carries a comment whose
raw text `"1,2"` is contained in no literal raw slice (`"1"`, `"2"`), yet
`to_json` returns `"[1,2]"`, which contains `"1,2"` — the comment's raw
text (a trivia raw slice) appears in the canonical output by spanning a
separator boundary. -/
theorem c4_counterexample :
    "1,2" ∈ c4ExTree.commentSources
    ∧ (("1,2").data <:+: (c4ExTree.to_json).data)
    ∧ (∀ s ∈ c4ExTree.literals, ¬ (("1,2").data <:+: s.data)) := by
  refine ⟨by decide, ?_, by decide⟩
  exact ⟨['['], [']'], by decide⟩

/-- Claim C4, amended: `to_json` consults no trivia — its output on any
tree equals its output on the same tree with every trivia list emptied —
and it joins array members and object `key:value` pairs with exactly one
`","` and no other characters; moreover a comment's raw text cannot occur
in the output as long as the comment contains some character that is
neither structural punctuation nor present in any literal raw slice
(ruling out boundary-spanning coincidences like the counterexample). -/
theorem c4_canonical_minimality (t : Json5Node)
    (h : ∀ c ∈ t.commentSources, ∃ x ∈ c.data,
        x ∉ punctChars ∧ ∀ s ∈ t.literals, x ∉ s.data) :
    (∀ c ∈ t.commentSources, ¬ (c.data <:+: (t.to_json).data))
    ∧ (t.eraseTrivia).to_json = t.to_json
    ∧ (∀ lt tt ms, Json5Node.to_json (.array lt tt ms)
        = "[" ++ joinSep "," (ms.map Json5Node.to_json) ++ "]")
    ∧ (∀ lt tt d, Json5Node.to_json (.obj lt tt d)
        = "\x7b" ++ joinSep ","
            (d.map (fun e => e.key.to_json ++ ":" ++ e.value.to_json)) ++ "\x7d") := by
  refine ⟨?_, to_json_eraseTrivia t, ?_, ?_⟩
  · intro c hc hinf
    rcases h c hc with ⟨x, hxc, hxp, hxl⟩
    rcases hinf with ⟨u, w, huw⟩
    have hx : x ∈ (t.to_json).data := by
      rw [← huw]
      simp [hxc]
    rcases to_json_chars t x hx with hp | ⟨s, hs, hxs⟩
    · exact hxp hp
    · exact hxl s hs hxs
  · intro lt tt ms
    simp [Json5Node.to_json, to_json_list_eq_map]
  · intro lt tt d
    rfl

/-- The tree used by the C4 witness: a one-element array with an honest
`//`-style comment in its leading trivia. -/
def c4WitTree : Json5Node :=
  Json5Node.array [Json5Trivia.comment "// note"] [Json5Trivia.whitespace " "]
    [Json5Node.prim (Json5Primitive.mk "1" (JValue.int 1) [Json5Trivia.newline "\n"])]

/-- Witness for C4 at `c4WitTree`: its one comment contains `'/'`, which
is neither punctuation nor in the literal slice `"1"`, so the comment text
cannot appear in the canonical output. -/
theorem c4_canonical_minimality_witness :
    (∀ c ∈ c4WitTree.commentSources, ∃ x ∈ c.data,
        x ∉ punctChars ∧ ∀ s ∈ c4WitTree.literals, x ∉ s.data)
    ∧ ((∀ c ∈ c4WitTree.commentSources, ¬ (c.data <:+: (c4WitTree.to_json).data))
      ∧ (c4WitTree.eraseTrivia).to_json = c4WitTree.to_json
      ∧ (∀ lt tt ms, Json5Node.to_json (.array lt tt ms)
          = "[" ++ joinSep "," (ms.map Json5Node.to_json) ++ "]")
      ∧ (∀ lt tt d, Json5Node.to_json (.obj lt tt d)
          = "\x7b" ++ joinSep ","
              (d.map (fun e => e.key.to_json ++ ":" ++ e.value.to_json)) ++ "\x7d")) :=
  ⟨by decide, c4_canonical_minimality c4WitTree (by decide)⟩
